import Mathlib

/-!
Projection structs of `Windows.UI.ViewManagement.1.h`

The header declares, in namespace `winrt::Windows::UI::ViewManagement`, one struct per
interface.  Each declaration is embedded below as a small syntax tree (bases, constructor
declarations with their parameter lists, `noexcept` flag, member-initializer list and body),
and constructor calls are given meaning by an evaluator over that tree.  The base class
`winrt::Windows::Foundation::IInspectable` lives in another header and is a parameter of the
evaluator.
-/

namespace ViewManagement

/-- Type expressions as written in the header: `void`, a possibly qualified name such as
`std::nullptr_t`, a template-id with one argument such as `impl::consume_t<X>`, and `T*`. -/
inductive TypeExpr where
  | void : TypeExpr
  | named (scope : List String) (id : String) : TypeExpr
  | templ (scope : List String) (id : String) (arg : TypeExpr) : TypeExpr
  | pointer (pointee : TypeExpr) : TypeExpr
  deriving DecidableEq

/-- Expressions as written in default arguments and member-initializer lists. -/
inductive Expr where
  | nullptrLit : Expr
  | ident (id : String) : Expr
  deriving DecidableEq

/-- One parameter declaration: its type, its name when it has one, its default argument
when it has one. -/
structure Param where
  ty : TypeExpr
  name : Option String
  dflt : Option Expr
  deriving DecidableEq

/-- One entry `Target(args...)` of a member-initializer list. -/
structure Init where
  target : TypeExpr
  args : List Expr
  deriving DecidableEq

/-- A constructor declaration `name(params) noexcept? : inits { body }`; the body is kept as
the list of its statements. -/
structure CtorDecl where
  name : String
  params : List Param
  isNoexcept : Bool
  inits : List Init
  body : List String
  deriving DecidableEq

/-- A member declaration: a constructor-shaped member or a data member. -/
inductive Member where
  | ctor (c : CtorDecl) : Member
  | field (ty : TypeExpr) (id : String) : Member
  deriving DecidableEq

/-- A struct declaration `struct __declspec(attrs) name : bases { members };`. -/
structure StructDecl where
  declspec : List String
  name : String
  bases : List TypeExpr
  members : List Member
  deriving DecidableEq

/-- The type `winrt::Windows::Foundation::IInspectable`. -/
def inspectableT : TypeExpr := .named ["winrt", "Windows", "Foundation"] "IInspectable"

/-- The type `impl::consume_t<X>` for an unqualified name `X`. -/
def consumeT (x : String) : TypeExpr := .templ ["impl"] "consume_t" (.named [] x)

/-- The type `std::nullptr_t`. -/
def nullptrT : TypeExpr := .named ["std"] "nullptr_t"

/-- The type `void*`. -/
def voidPtrT : TypeExpr := .pointer .void

/-- The type `take_ownership_from_abi_t`. -/
def tagT : TypeExpr := .named [] "take_ownership_from_abi_t"

/-- Lines 9-15: `struct IAccessibilitySettings`. -/
def IAccessibilitySettings : StructDecl :=
  ⟨["empty_bases"], "IAccessibilitySettings",
   [.named ["winrt", "Windows", "Foundation"] "IInspectable", .templ ["impl"] "consume_t" (.named [] "IAccessibilitySettings")],
   [.ctor ⟨"IAccessibilitySettings", [⟨.named ["std"] "nullptr_t", none, some .nullptrLit⟩], true, [], []⟩,
    .ctor ⟨"IAccessibilitySettings", [⟨.pointer .void, some "ptr", none⟩, ⟨.named [] "take_ownership_from_abi_t", none, none⟩], true, [⟨.named ["winrt", "Windows", "Foundation"] "IInspectable", [.ident "ptr", .ident "take_ownership_from_abi"]⟩], []⟩]⟩

/-- Lines 16-22: `struct IActivationViewSwitcher`. -/
def IActivationViewSwitcher : StructDecl :=
  ⟨["empty_bases"], "IActivationViewSwitcher",
   [.named ["winrt", "Windows", "Foundation"] "IInspectable", .templ ["impl"] "consume_t" (.named [] "IActivationViewSwitcher")],
   [.ctor ⟨"IActivationViewSwitcher", [⟨.named ["std"] "nullptr_t", none, some .nullptrLit⟩], true, [], []⟩,
    .ctor ⟨"IActivationViewSwitcher", [⟨.pointer .void, some "ptr", none⟩, ⟨.named [] "take_ownership_from_abi_t", none, none⟩], true, [⟨.named ["winrt", "Windows", "Foundation"] "IInspectable", [.ident "ptr", .ident "take_ownership_from_abi"]⟩], []⟩]⟩

/-- Lines 23-29: `struct IApplicationView`. -/
def IApplicationView : StructDecl :=
  ⟨["empty_bases"], "IApplicationView",
   [.named ["winrt", "Windows", "Foundation"] "IInspectable", .templ ["impl"] "consume_t" (.named [] "IApplicationView")],
   [.ctor ⟨"IApplicationView", [⟨.named ["std"] "nullptr_t", none, some .nullptrLit⟩], true, [], []⟩,
    .ctor ⟨"IApplicationView", [⟨.pointer .void, some "ptr", none⟩, ⟨.named [] "take_ownership_from_abi_t", none, none⟩], true, [⟨.named ["winrt", "Windows", "Foundation"] "IInspectable", [.ident "ptr", .ident "take_ownership_from_abi"]⟩], []⟩]⟩

/-- Lines 30-36: `struct IApplicationView2`. -/
def IApplicationView2 : StructDecl :=
  ⟨["empty_bases"], "IApplicationView2",
   [.named ["winrt", "Windows", "Foundation"] "IInspectable", .templ ["impl"] "consume_t" (.named [] "IApplicationView2")],
   [.ctor ⟨"IApplicationView2", [⟨.named ["std"] "nullptr_t", none, some .nullptrLit⟩], true, [], []⟩,
    .ctor ⟨"IApplicationView2", [⟨.pointer .void, some "ptr", none⟩, ⟨.named [] "take_ownership_from_abi_t", none, none⟩], true, [⟨.named ["winrt", "Windows", "Foundation"] "IInspectable", [.ident "ptr", .ident "take_ownership_from_abi"]⟩], []⟩]⟩

/-- Lines 37-43: `struct IApplicationView3`. -/
def IApplicationView3 : StructDecl :=
  ⟨["empty_bases"], "IApplicationView3",
   [.named ["winrt", "Windows", "Foundation"] "IInspectable", .templ ["impl"] "consume_t" (.named [] "IApplicationView3")],
   [.ctor ⟨"IApplicationView3", [⟨.named ["std"] "nullptr_t", none, some .nullptrLit⟩], true, [], []⟩,
    .ctor ⟨"IApplicationView3", [⟨.pointer .void, some "ptr", none⟩, ⟨.named [] "take_ownership_from_abi_t", none, none⟩], true, [⟨.named ["winrt", "Windows", "Foundation"] "IInspectable", [.ident "ptr", .ident "take_ownership_from_abi"]⟩], []⟩]⟩

/-- Lines 44-50: `struct IApplicationView4`. -/
def IApplicationView4 : StructDecl :=
  ⟨["empty_bases"], "IApplicationView4",
   [.named ["winrt", "Windows", "Foundation"] "IInspectable", .templ ["impl"] "consume_t" (.named [] "IApplicationView4")],
   [.ctor ⟨"IApplicationView4", [⟨.named ["std"] "nullptr_t", none, some .nullptrLit⟩], true, [], []⟩,
    .ctor ⟨"IApplicationView4", [⟨.pointer .void, some "ptr", none⟩, ⟨.named [] "take_ownership_from_abi_t", none, none⟩], true, [⟨.named ["winrt", "Windows", "Foundation"] "IInspectable", [.ident "ptr", .ident "take_ownership_from_abi"]⟩], []⟩]⟩

/-- Lines 51-57: `struct IApplicationView7`. -/
def IApplicationView7 : StructDecl :=
  ⟨["empty_bases"], "IApplicationView7",
   [.named ["winrt", "Windows", "Foundation"] "IInspectable", .templ ["impl"] "consume_t" (.named [] "IApplicationView7")],
   [.ctor ⟨"IApplicationView7", [⟨.named ["std"] "nullptr_t", none, some .nullptrLit⟩], true, [], []⟩,
    .ctor ⟨"IApplicationView7", [⟨.pointer .void, some "ptr", none⟩, ⟨.named [] "take_ownership_from_abi_t", none, none⟩], true, [⟨.named ["winrt", "Windows", "Foundation"] "IInspectable", [.ident "ptr", .ident "take_ownership_from_abi"]⟩], []⟩]⟩

/-- Lines 58-64: `struct IApplicationView9`. -/
def IApplicationView9 : StructDecl :=
  ⟨["empty_bases"], "IApplicationView9",
   [.named ["winrt", "Windows", "Foundation"] "IInspectable", .templ ["impl"] "consume_t" (.named [] "IApplicationView9")],
   [.ctor ⟨"IApplicationView9", [⟨.named ["std"] "nullptr_t", none, some .nullptrLit⟩], true, [], []⟩,
    .ctor ⟨"IApplicationView9", [⟨.pointer .void, some "ptr", none⟩, ⟨.named [] "take_ownership_from_abi_t", none, none⟩], true, [⟨.named ["winrt", "Windows", "Foundation"] "IInspectable", [.ident "ptr", .ident "take_ownership_from_abi"]⟩], []⟩]⟩

/-- Lines 65-71: `struct IApplicationViewConsolidatedEventArgs`. -/
def IApplicationViewConsolidatedEventArgs : StructDecl :=
  ⟨["empty_bases"], "IApplicationViewConsolidatedEventArgs",
   [.named ["winrt", "Windows", "Foundation"] "IInspectable", .templ ["impl"] "consume_t" (.named [] "IApplicationViewConsolidatedEventArgs")],
   [.ctor ⟨"IApplicationViewConsolidatedEventArgs", [⟨.named ["std"] "nullptr_t", none, some .nullptrLit⟩], true, [], []⟩,
    .ctor ⟨"IApplicationViewConsolidatedEventArgs", [⟨.pointer .void, some "ptr", none⟩, ⟨.named [] "take_ownership_from_abi_t", none, none⟩], true, [⟨.named ["winrt", "Windows", "Foundation"] "IInspectable", [.ident "ptr", .ident "take_ownership_from_abi"]⟩], []⟩]⟩

/-- Lines 72-78: `struct IApplicationViewConsolidatedEventArgs2`. -/
def IApplicationViewConsolidatedEventArgs2 : StructDecl :=
  ⟨["empty_bases"], "IApplicationViewConsolidatedEventArgs2",
   [.named ["winrt", "Windows", "Foundation"] "IInspectable", .templ ["impl"] "consume_t" (.named [] "IApplicationViewConsolidatedEventArgs2")],
   [.ctor ⟨"IApplicationViewConsolidatedEventArgs2", [⟨.named ["std"] "nullptr_t", none, some .nullptrLit⟩], true, [], []⟩,
    .ctor ⟨"IApplicationViewConsolidatedEventArgs2", [⟨.pointer .void, some "ptr", none⟩, ⟨.named [] "take_ownership_from_abi_t", none, none⟩], true, [⟨.named ["winrt", "Windows", "Foundation"] "IInspectable", [.ident "ptr", .ident "take_ownership_from_abi"]⟩], []⟩]⟩

/-- Lines 79-85: `struct IApplicationViewFullscreenStatics`. -/
def IApplicationViewFullscreenStatics : StructDecl :=
  ⟨["empty_bases"], "IApplicationViewFullscreenStatics",
   [.named ["winrt", "Windows", "Foundation"] "IInspectable", .templ ["impl"] "consume_t" (.named [] "IApplicationViewFullscreenStatics")],
   [.ctor ⟨"IApplicationViewFullscreenStatics", [⟨.named ["std"] "nullptr_t", none, some .nullptrLit⟩], true, [], []⟩,
    .ctor ⟨"IApplicationViewFullscreenStatics", [⟨.pointer .void, some "ptr", none⟩, ⟨.named [] "take_ownership_from_abi_t", none, none⟩], true, [⟨.named ["winrt", "Windows", "Foundation"] "IInspectable", [.ident "ptr", .ident "take_ownership_from_abi"]⟩], []⟩]⟩

/-- Lines 86-92: `struct IApplicationViewInteropStatics`. -/
def IApplicationViewInteropStatics : StructDecl :=
  ⟨["empty_bases"], "IApplicationViewInteropStatics",
   [.named ["winrt", "Windows", "Foundation"] "IInspectable", .templ ["impl"] "consume_t" (.named [] "IApplicationViewInteropStatics")],
   [.ctor ⟨"IApplicationViewInteropStatics", [⟨.named ["std"] "nullptr_t", none, some .nullptrLit⟩], true, [], []⟩,
    .ctor ⟨"IApplicationViewInteropStatics", [⟨.pointer .void, some "ptr", none⟩, ⟨.named [] "take_ownership_from_abi_t", none, none⟩], true, [⟨.named ["winrt", "Windows", "Foundation"] "IInspectable", [.ident "ptr", .ident "take_ownership_from_abi"]⟩], []⟩]⟩

/-- Lines 93-99: `struct IApplicationViewScaling`. -/
def IApplicationViewScaling : StructDecl :=
  ⟨["empty_bases"], "IApplicationViewScaling",
   [.named ["winrt", "Windows", "Foundation"] "IInspectable", .templ ["impl"] "consume_t" (.named [] "IApplicationViewScaling")],
   [.ctor ⟨"IApplicationViewScaling", [⟨.named ["std"] "nullptr_t", none, some .nullptrLit⟩], true, [], []⟩,
    .ctor ⟨"IApplicationViewScaling", [⟨.pointer .void, some "ptr", none⟩, ⟨.named [] "take_ownership_from_abi_t", none, none⟩], true, [⟨.named ["winrt", "Windows", "Foundation"] "IInspectable", [.ident "ptr", .ident "take_ownership_from_abi"]⟩], []⟩]⟩

/-- Lines 100-106: `struct IApplicationViewScalingStatics`. -/
def IApplicationViewScalingStatics : StructDecl :=
  ⟨["empty_bases"], "IApplicationViewScalingStatics",
   [.named ["winrt", "Windows", "Foundation"] "IInspectable", .templ ["impl"] "consume_t" (.named [] "IApplicationViewScalingStatics")],
   [.ctor ⟨"IApplicationViewScalingStatics", [⟨.named ["std"] "nullptr_t", none, some .nullptrLit⟩], true, [], []⟩,
    .ctor ⟨"IApplicationViewScalingStatics", [⟨.pointer .void, some "ptr", none⟩, ⟨.named [] "take_ownership_from_abi_t", none, none⟩], true, [⟨.named ["winrt", "Windows", "Foundation"] "IInspectable", [.ident "ptr", .ident "take_ownership_from_abi"]⟩], []⟩]⟩

/-- Lines 107-113: `struct IApplicationViewStatics`. -/
def IApplicationViewStatics : StructDecl :=
  ⟨["empty_bases"], "IApplicationViewStatics",
   [.named ["winrt", "Windows", "Foundation"] "IInspectable", .templ ["impl"] "consume_t" (.named [] "IApplicationViewStatics")],
   [.ctor ⟨"IApplicationViewStatics", [⟨.named ["std"] "nullptr_t", none, some .nullptrLit⟩], true, [], []⟩,
    .ctor ⟨"IApplicationViewStatics", [⟨.pointer .void, some "ptr", none⟩, ⟨.named [] "take_ownership_from_abi_t", none, none⟩], true, [⟨.named ["winrt", "Windows", "Foundation"] "IInspectable", [.ident "ptr", .ident "take_ownership_from_abi"]⟩], []⟩]⟩

/-- Lines 114-120: `struct IApplicationViewStatics2`. -/
def IApplicationViewStatics2 : StructDecl :=
  ⟨["empty_bases"], "IApplicationViewStatics2",
   [.named ["winrt", "Windows", "Foundation"] "IInspectable", .templ ["impl"] "consume_t" (.named [] "IApplicationViewStatics2")],
   [.ctor ⟨"IApplicationViewStatics2", [⟨.named ["std"] "nullptr_t", none, some .nullptrLit⟩], true, [], []⟩,
    .ctor ⟨"IApplicationViewStatics2", [⟨.pointer .void, some "ptr", none⟩, ⟨.named [] "take_ownership_from_abi_t", none, none⟩], true, [⟨.named ["winrt", "Windows", "Foundation"] "IInspectable", [.ident "ptr", .ident "take_ownership_from_abi"]⟩], []⟩]⟩

/-- Lines 121-127: `struct IApplicationViewStatics3`. -/
def IApplicationViewStatics3 : StructDecl :=
  ⟨["empty_bases"], "IApplicationViewStatics3",
   [.named ["winrt", "Windows", "Foundation"] "IInspectable", .templ ["impl"] "consume_t" (.named [] "IApplicationViewStatics3")],
   [.ctor ⟨"IApplicationViewStatics3", [⟨.named ["std"] "nullptr_t", none, some .nullptrLit⟩], true, [], []⟩,
    .ctor ⟨"IApplicationViewStatics3", [⟨.pointer .void, some "ptr", none⟩, ⟨.named [] "take_ownership_from_abi_t", none, none⟩], true, [⟨.named ["winrt", "Windows", "Foundation"] "IInspectable", [.ident "ptr", .ident "take_ownership_from_abi"]⟩], []⟩]⟩

/-- Lines 128-134: `struct IApplicationViewStatics4`. -/
def IApplicationViewStatics4 : StructDecl :=
  ⟨["empty_bases"], "IApplicationViewStatics4",
   [.named ["winrt", "Windows", "Foundation"] "IInspectable", .templ ["impl"] "consume_t" (.named [] "IApplicationViewStatics4")],
   [.ctor ⟨"IApplicationViewStatics4", [⟨.named ["std"] "nullptr_t", none, some .nullptrLit⟩], true, [], []⟩,
    .ctor ⟨"IApplicationViewStatics4", [⟨.pointer .void, some "ptr", none⟩, ⟨.named [] "take_ownership_from_abi_t", none, none⟩], true, [⟨.named ["winrt", "Windows", "Foundation"] "IInspectable", [.ident "ptr", .ident "take_ownership_from_abi"]⟩], []⟩]⟩

/-- Lines 135-141: `struct IApplicationViewSwitcherStatics`. -/
def IApplicationViewSwitcherStatics : StructDecl :=
  ⟨["empty_bases"], "IApplicationViewSwitcherStatics",
   [.named ["winrt", "Windows", "Foundation"] "IInspectable", .templ ["impl"] "consume_t" (.named [] "IApplicationViewSwitcherStatics")],
   [.ctor ⟨"IApplicationViewSwitcherStatics", [⟨.named ["std"] "nullptr_t", none, some .nullptrLit⟩], true, [], []⟩,
    .ctor ⟨"IApplicationViewSwitcherStatics", [⟨.pointer .void, some "ptr", none⟩, ⟨.named [] "take_ownership_from_abi_t", none, none⟩], true, [⟨.named ["winrt", "Windows", "Foundation"] "IInspectable", [.ident "ptr", .ident "take_ownership_from_abi"]⟩], []⟩]⟩

/-- Lines 142-148: `struct IApplicationViewSwitcherStatics2`. -/
def IApplicationViewSwitcherStatics2 : StructDecl :=
  ⟨["empty_bases"], "IApplicationViewSwitcherStatics2",
   [.named ["winrt", "Windows", "Foundation"] "IInspectable", .templ ["impl"] "consume_t" (.named [] "IApplicationViewSwitcherStatics2")],
   [.ctor ⟨"IApplicationViewSwitcherStatics2", [⟨.named ["std"] "nullptr_t", none, some .nullptrLit⟩], true, [], []⟩,
    .ctor ⟨"IApplicationViewSwitcherStatics2", [⟨.pointer .void, some "ptr", none⟩, ⟨.named [] "take_ownership_from_abi_t", none, none⟩], true, [⟨.named ["winrt", "Windows", "Foundation"] "IInspectable", [.ident "ptr", .ident "take_ownership_from_abi"]⟩], []⟩]⟩

/-- Lines 149-155: `struct IApplicationViewSwitcherStatics3`. -/
def IApplicationViewSwitcherStatics3 : StructDecl :=
  ⟨["empty_bases"], "IApplicationViewSwitcherStatics3",
   [.named ["winrt", "Windows", "Foundation"] "IInspectable", .templ ["impl"] "consume_t" (.named [] "IApplicationViewSwitcherStatics3")],
   [.ctor ⟨"IApplicationViewSwitcherStatics3", [⟨.named ["std"] "nullptr_t", none, some .nullptrLit⟩], true, [], []⟩,
    .ctor ⟨"IApplicationViewSwitcherStatics3", [⟨.pointer .void, some "ptr", none⟩, ⟨.named [] "take_ownership_from_abi_t", none, none⟩], true, [⟨.named ["winrt", "Windows", "Foundation"] "IInspectable", [.ident "ptr", .ident "take_ownership_from_abi"]⟩], []⟩]⟩

/-- Lines 156-162: `struct IApplicationViewTitleBar`. -/
def IApplicationViewTitleBar : StructDecl :=
  ⟨["empty_bases"], "IApplicationViewTitleBar",
   [.named ["winrt", "Windows", "Foundation"] "IInspectable", .templ ["impl"] "consume_t" (.named [] "IApplicationViewTitleBar")],
   [.ctor ⟨"IApplicationViewTitleBar", [⟨.named ["std"] "nullptr_t", none, some .nullptrLit⟩], true, [], []⟩,
    .ctor ⟨"IApplicationViewTitleBar", [⟨.pointer .void, some "ptr", none⟩, ⟨.named [] "take_ownership_from_abi_t", none, none⟩], true, [⟨.named ["winrt", "Windows", "Foundation"] "IInspectable", [.ident "ptr", .ident "take_ownership_from_abi"]⟩], []⟩]⟩

/-- Lines 163-169: `struct IApplicationViewTransferContext`. -/
def IApplicationViewTransferContext : StructDecl :=
  ⟨["empty_bases"], "IApplicationViewTransferContext",
   [.named ["winrt", "Windows", "Foundation"] "IInspectable", .templ ["impl"] "consume_t" (.named [] "IApplicationViewTransferContext")],
   [.ctor ⟨"IApplicationViewTransferContext", [⟨.named ["std"] "nullptr_t", none, some .nullptrLit⟩], true, [], []⟩,
    .ctor ⟨"IApplicationViewTransferContext", [⟨.pointer .void, some "ptr", none⟩, ⟨.named [] "take_ownership_from_abi_t", none, none⟩], true, [⟨.named ["winrt", "Windows", "Foundation"] "IInspectable", [.ident "ptr", .ident "take_ownership_from_abi"]⟩], []⟩]⟩

/-- Lines 170-176: `struct IApplicationViewTransferContextStatics`. -/
def IApplicationViewTransferContextStatics : StructDecl :=
  ⟨["empty_bases"], "IApplicationViewTransferContextStatics",
   [.named ["winrt", "Windows", "Foundation"] "IInspectable", .templ ["impl"] "consume_t" (.named [] "IApplicationViewTransferContextStatics")],
   [.ctor ⟨"IApplicationViewTransferContextStatics", [⟨.named ["std"] "nullptr_t", none, some .nullptrLit⟩], true, [], []⟩,
    .ctor ⟨"IApplicationViewTransferContextStatics", [⟨.pointer .void, some "ptr", none⟩, ⟨.named [] "take_ownership_from_abi_t", none, none⟩], true, [⟨.named ["winrt", "Windows", "Foundation"] "IInspectable", [.ident "ptr", .ident "take_ownership_from_abi"]⟩], []⟩]⟩

/-- Lines 177-183: `struct IApplicationViewWithContext`. -/
def IApplicationViewWithContext : StructDecl :=
  ⟨["empty_bases"], "IApplicationViewWithContext",
   [.named ["winrt", "Windows", "Foundation"] "IInspectable", .templ ["impl"] "consume_t" (.named [] "IApplicationViewWithContext")],
   [.ctor ⟨"IApplicationViewWithContext", [⟨.named ["std"] "nullptr_t", none, some .nullptrLit⟩], true, [], []⟩,
    .ctor ⟨"IApplicationViewWithContext", [⟨.pointer .void, some "ptr", none⟩, ⟨.named [] "take_ownership_from_abi_t", none, none⟩], true, [⟨.named ["winrt", "Windows", "Foundation"] "IInspectable", [.ident "ptr", .ident "take_ownership_from_abi"]⟩], []⟩]⟩

/-- Lines 184-190: `struct IInputPane`. -/
def IInputPane : StructDecl :=
  ⟨["empty_bases"], "IInputPane",
   [.named ["winrt", "Windows", "Foundation"] "IInspectable", .templ ["impl"] "consume_t" (.named [] "IInputPane")],
   [.ctor ⟨"IInputPane", [⟨.named ["std"] "nullptr_t", none, some .nullptrLit⟩], true, [], []⟩,
    .ctor ⟨"IInputPane", [⟨.pointer .void, some "ptr", none⟩, ⟨.named [] "take_ownership_from_abi_t", none, none⟩], true, [⟨.named ["winrt", "Windows", "Foundation"] "IInspectable", [.ident "ptr", .ident "take_ownership_from_abi"]⟩], []⟩]⟩

/-- Lines 191-197: `struct IInputPane2`. -/
def IInputPane2 : StructDecl :=
  ⟨["empty_bases"], "IInputPane2",
   [.named ["winrt", "Windows", "Foundation"] "IInspectable", .templ ["impl"] "consume_t" (.named [] "IInputPane2")],
   [.ctor ⟨"IInputPane2", [⟨.named ["std"] "nullptr_t", none, some .nullptrLit⟩], true, [], []⟩,
    .ctor ⟨"IInputPane2", [⟨.pointer .void, some "ptr", none⟩, ⟨.named [] "take_ownership_from_abi_t", none, none⟩], true, [⟨.named ["winrt", "Windows", "Foundation"] "IInspectable", [.ident "ptr", .ident "take_ownership_from_abi"]⟩], []⟩]⟩

/-- Lines 198-204: `struct IInputPaneControl`. -/
def IInputPaneControl : StructDecl :=
  ⟨["empty_bases"], "IInputPaneControl",
   [.named ["winrt", "Windows", "Foundation"] "IInspectable", .templ ["impl"] "consume_t" (.named [] "IInputPaneControl")],
   [.ctor ⟨"IInputPaneControl", [⟨.named ["std"] "nullptr_t", none, some .nullptrLit⟩], true, [], []⟩,
    .ctor ⟨"IInputPaneControl", [⟨.pointer .void, some "ptr", none⟩, ⟨.named [] "take_ownership_from_abi_t", none, none⟩], true, [⟨.named ["winrt", "Windows", "Foundation"] "IInspectable", [.ident "ptr", .ident "take_ownership_from_abi"]⟩], []⟩]⟩

/-- Lines 205-211: `struct IInputPaneStatics`. -/
def IInputPaneStatics : StructDecl :=
  ⟨["empty_bases"], "IInputPaneStatics",
   [.named ["winrt", "Windows", "Foundation"] "IInspectable", .templ ["impl"] "consume_t" (.named [] "IInputPaneStatics")],
   [.ctor ⟨"IInputPaneStatics", [⟨.named ["std"] "nullptr_t", none, some .nullptrLit⟩], true, [], []⟩,
    .ctor ⟨"IInputPaneStatics", [⟨.pointer .void, some "ptr", none⟩, ⟨.named [] "take_ownership_from_abi_t", none, none⟩], true, [⟨.named ["winrt", "Windows", "Foundation"] "IInspectable", [.ident "ptr", .ident "take_ownership_from_abi"]⟩], []⟩]⟩

/-- Lines 212-218: `struct IInputPaneStatics2`. -/
def IInputPaneStatics2 : StructDecl :=
  ⟨["empty_bases"], "IInputPaneStatics2",
   [.named ["winrt", "Windows", "Foundation"] "IInspectable", .templ ["impl"] "consume_t" (.named [] "IInputPaneStatics2")],
   [.ctor ⟨"IInputPaneStatics2", [⟨.named ["std"] "nullptr_t", none, some .nullptrLit⟩], true, [], []⟩,
    .ctor ⟨"IInputPaneStatics2", [⟨.pointer .void, some "ptr", none⟩, ⟨.named [] "take_ownership_from_abi_t", none, none⟩], true, [⟨.named ["winrt", "Windows", "Foundation"] "IInspectable", [.ident "ptr", .ident "take_ownership_from_abi"]⟩], []⟩]⟩

/-- Lines 219-225: `struct IInputPaneVisibilityEventArgs`. -/
def IInputPaneVisibilityEventArgs : StructDecl :=
  ⟨["empty_bases"], "IInputPaneVisibilityEventArgs",
   [.named ["winrt", "Windows", "Foundation"] "IInspectable", .templ ["impl"] "consume_t" (.named [] "IInputPaneVisibilityEventArgs")],
   [.ctor ⟨"IInputPaneVisibilityEventArgs", [⟨.named ["std"] "nullptr_t", none, some .nullptrLit⟩], true, [], []⟩,
    .ctor ⟨"IInputPaneVisibilityEventArgs", [⟨.pointer .void, some "ptr", none⟩, ⟨.named [] "take_ownership_from_abi_t", none, none⟩], true, [⟨.named ["winrt", "Windows", "Foundation"] "IInspectable", [.ident "ptr", .ident "take_ownership_from_abi"]⟩], []⟩]⟩

/-- Lines 226-232: `struct IProjectionManagerStatics`. -/
def IProjectionManagerStatics : StructDecl :=
  ⟨["empty_bases"], "IProjectionManagerStatics",
   [.named ["winrt", "Windows", "Foundation"] "IInspectable", .templ ["impl"] "consume_t" (.named [] "IProjectionManagerStatics")],
   [.ctor ⟨"IProjectionManagerStatics", [⟨.named ["std"] "nullptr_t", none, some .nullptrLit⟩], true, [], []⟩,
    .ctor ⟨"IProjectionManagerStatics", [⟨.pointer .void, some "ptr", none⟩, ⟨.named [] "take_ownership_from_abi_t", none, none⟩], true, [⟨.named ["winrt", "Windows", "Foundation"] "IInspectable", [.ident "ptr", .ident "take_ownership_from_abi"]⟩], []⟩]⟩

/-- Lines 233-239: `struct IProjectionManagerStatics2`. -/
def IProjectionManagerStatics2 : StructDecl :=
  ⟨["empty_bases"], "IProjectionManagerStatics2",
   [.named ["winrt", "Windows", "Foundation"] "IInspectable", .templ ["impl"] "consume_t" (.named [] "IProjectionManagerStatics2")],
   [.ctor ⟨"IProjectionManagerStatics2", [⟨.named ["std"] "nullptr_t", none, some .nullptrLit⟩], true, [], []⟩,
    .ctor ⟨"IProjectionManagerStatics2", [⟨.pointer .void, some "ptr", none⟩, ⟨.named [] "take_ownership_from_abi_t", none, none⟩], true, [⟨.named ["winrt", "Windows", "Foundation"] "IInspectable", [.ident "ptr", .ident "take_ownership_from_abi"]⟩], []⟩]⟩

/-- Lines 240-246: `struct IUISettings`. -/
def IUISettings : StructDecl :=
  ⟨["empty_bases"], "IUISettings",
   [.named ["winrt", "Windows", "Foundation"] "IInspectable", .templ ["impl"] "consume_t" (.named [] "IUISettings")],
   [.ctor ⟨"IUISettings", [⟨.named ["std"] "nullptr_t", none, some .nullptrLit⟩], true, [], []⟩,
    .ctor ⟨"IUISettings", [⟨.pointer .void, some "ptr", none⟩, ⟨.named [] "take_ownership_from_abi_t", none, none⟩], true, [⟨.named ["winrt", "Windows", "Foundation"] "IInspectable", [.ident "ptr", .ident "take_ownership_from_abi"]⟩], []⟩]⟩

/-- Lines 247-253: `struct IUISettings2`. -/
def IUISettings2 : StructDecl :=
  ⟨["empty_bases"], "IUISettings2",
   [.named ["winrt", "Windows", "Foundation"] "IInspectable", .templ ["impl"] "consume_t" (.named [] "IUISettings2")],
   [.ctor ⟨"IUISettings2", [⟨.named ["std"] "nullptr_t", none, some .nullptrLit⟩], true, [], []⟩,
    .ctor ⟨"IUISettings2", [⟨.pointer .void, some "ptr", none⟩, ⟨.named [] "take_ownership_from_abi_t", none, none⟩], true, [⟨.named ["winrt", "Windows", "Foundation"] "IInspectable", [.ident "ptr", .ident "take_ownership_from_abi"]⟩], []⟩]⟩

/-- Lines 254-260: `struct IUISettings3`. -/
def IUISettings3 : StructDecl :=
  ⟨["empty_bases"], "IUISettings3",
   [.named ["winrt", "Windows", "Foundation"] "IInspectable", .templ ["impl"] "consume_t" (.named [] "IUISettings3")],
   [.ctor ⟨"IUISettings3", [⟨.named ["std"] "nullptr_t", none, some .nullptrLit⟩], true, [], []⟩,
    .ctor ⟨"IUISettings3", [⟨.pointer .void, some "ptr", none⟩, ⟨.named [] "take_ownership_from_abi_t", none, none⟩], true, [⟨.named ["winrt", "Windows", "Foundation"] "IInspectable", [.ident "ptr", .ident "take_ownership_from_abi"]⟩], []⟩]⟩

/-- Lines 261-267: `struct IUISettings4`. -/
def IUISettings4 : StructDecl :=
  ⟨["empty_bases"], "IUISettings4",
   [.named ["winrt", "Windows", "Foundation"] "IInspectable", .templ ["impl"] "consume_t" (.named [] "IUISettings4")],
   [.ctor ⟨"IUISettings4", [⟨.named ["std"] "nullptr_t", none, some .nullptrLit⟩], true, [], []⟩,
    .ctor ⟨"IUISettings4", [⟨.pointer .void, some "ptr", none⟩, ⟨.named [] "take_ownership_from_abi_t", none, none⟩], true, [⟨.named ["winrt", "Windows", "Foundation"] "IInspectable", [.ident "ptr", .ident "take_ownership_from_abi"]⟩], []⟩]⟩

/-- Lines 268-274: `struct IUISettings5`. -/
def IUISettings5 : StructDecl :=
  ⟨["empty_bases"], "IUISettings5",
   [.named ["winrt", "Windows", "Foundation"] "IInspectable", .templ ["impl"] "consume_t" (.named [] "IUISettings5")],
   [.ctor ⟨"IUISettings5", [⟨.named ["std"] "nullptr_t", none, some .nullptrLit⟩], true, [], []⟩,
    .ctor ⟨"IUISettings5", [⟨.pointer .void, some "ptr", none⟩, ⟨.named [] "take_ownership_from_abi_t", none, none⟩], true, [⟨.named ["winrt", "Windows", "Foundation"] "IInspectable", [.ident "ptr", .ident "take_ownership_from_abi"]⟩], []⟩]⟩

/-- Lines 275-281: `struct IUISettings6`. -/
def IUISettings6 : StructDecl :=
  ⟨["empty_bases"], "IUISettings6",
   [.named ["winrt", "Windows", "Foundation"] "IInspectable", .templ ["impl"] "consume_t" (.named [] "IUISettings6")],
   [.ctor ⟨"IUISettings6", [⟨.named ["std"] "nullptr_t", none, some .nullptrLit⟩], true, [], []⟩,
    .ctor ⟨"IUISettings6", [⟨.pointer .void, some "ptr", none⟩, ⟨.named [] "take_ownership_from_abi_t", none, none⟩], true, [⟨.named ["winrt", "Windows", "Foundation"] "IInspectable", [.ident "ptr", .ident "take_ownership_from_abi"]⟩], []⟩]⟩

/-- Lines 282-288: `struct IUISettingsAnimationsEnabledChangedEventArgs`. -/
def IUISettingsAnimationsEnabledChangedEventArgs : StructDecl :=
  ⟨["empty_bases"], "IUISettingsAnimationsEnabledChangedEventArgs",
   [.named ["winrt", "Windows", "Foundation"] "IInspectable", .templ ["impl"] "consume_t" (.named [] "IUISettingsAnimationsEnabledChangedEventArgs")],
   [.ctor ⟨"IUISettingsAnimationsEnabledChangedEventArgs", [⟨.named ["std"] "nullptr_t", none, some .nullptrLit⟩], true, [], []⟩,
    .ctor ⟨"IUISettingsAnimationsEnabledChangedEventArgs", [⟨.pointer .void, some "ptr", none⟩, ⟨.named [] "take_ownership_from_abi_t", none, none⟩], true, [⟨.named ["winrt", "Windows", "Foundation"] "IInspectable", [.ident "ptr", .ident "take_ownership_from_abi"]⟩], []⟩]⟩

/-- Lines 289-295: `struct IUISettingsAutoHideScrollBarsChangedEventArgs`. -/
def IUISettingsAutoHideScrollBarsChangedEventArgs : StructDecl :=
  ⟨["empty_bases"], "IUISettingsAutoHideScrollBarsChangedEventArgs",
   [.named ["winrt", "Windows", "Foundation"] "IInspectable", .templ ["impl"] "consume_t" (.named [] "IUISettingsAutoHideScrollBarsChangedEventArgs")],
   [.ctor ⟨"IUISettingsAutoHideScrollBarsChangedEventArgs", [⟨.named ["std"] "nullptr_t", none, some .nullptrLit⟩], true, [], []⟩,
    .ctor ⟨"IUISettingsAutoHideScrollBarsChangedEventArgs", [⟨.pointer .void, some "ptr", none⟩, ⟨.named [] "take_ownership_from_abi_t", none, none⟩], true, [⟨.named ["winrt", "Windows", "Foundation"] "IInspectable", [.ident "ptr", .ident "take_ownership_from_abi"]⟩], []⟩]⟩

/-- Lines 296-302: `struct IUISettingsMessageDurationChangedEventArgs`. -/
def IUISettingsMessageDurationChangedEventArgs : StructDecl :=
  ⟨["empty_bases"], "IUISettingsMessageDurationChangedEventArgs",
   [.named ["winrt", "Windows", "Foundation"] "IInspectable", .templ ["impl"] "consume_t" (.named [] "IUISettingsMessageDurationChangedEventArgs")],
   [.ctor ⟨"IUISettingsMessageDurationChangedEventArgs", [⟨.named ["std"] "nullptr_t", none, some .nullptrLit⟩], true, [], []⟩,
    .ctor ⟨"IUISettingsMessageDurationChangedEventArgs", [⟨.pointer .void, some "ptr", none⟩, ⟨.named [] "take_ownership_from_abi_t", none, none⟩], true, [⟨.named ["winrt", "Windows", "Foundation"] "IInspectable", [.ident "ptr", .ident "take_ownership_from_abi"]⟩], []⟩]⟩

/-- Lines 303-309: `struct IUIViewSettings`. -/
def IUIViewSettings : StructDecl :=
  ⟨["empty_bases"], "IUIViewSettings",
   [.named ["winrt", "Windows", "Foundation"] "IInspectable", .templ ["impl"] "consume_t" (.named [] "IUIViewSettings")],
   [.ctor ⟨"IUIViewSettings", [⟨.named ["std"] "nullptr_t", none, some .nullptrLit⟩], true, [], []⟩,
    .ctor ⟨"IUIViewSettings", [⟨.pointer .void, some "ptr", none⟩, ⟨.named [] "take_ownership_from_abi_t", none, none⟩], true, [⟨.named ["winrt", "Windows", "Foundation"] "IInspectable", [.ident "ptr", .ident "take_ownership_from_abi"]⟩], []⟩]⟩

/-- Lines 310-316: `struct IUIViewSettingsPreferredInteractionMode`. -/
def IUIViewSettingsPreferredInteractionMode : StructDecl :=
  ⟨["empty_bases"], "IUIViewSettingsPreferredInteractionMode",
   [.named ["winrt", "Windows", "Foundation"] "IInspectable", .templ ["impl"] "consume_t" (.named [] "IUIViewSettingsPreferredInteractionMode")],
   [.ctor ⟨"IUIViewSettingsPreferredInteractionMode", [⟨.named ["std"] "nullptr_t", none, some .nullptrLit⟩], true, [], []⟩,
    .ctor ⟨"IUIViewSettingsPreferredInteractionMode", [⟨.pointer .void, some "ptr", none⟩, ⟨.named [] "take_ownership_from_abi_t", none, none⟩], true, [⟨.named ["winrt", "Windows", "Foundation"] "IInspectable", [.ident "ptr", .ident "take_ownership_from_abi"]⟩], []⟩]⟩

/-- Lines 317-323: `struct IUIViewSettingsStatics`. -/
def IUIViewSettingsStatics : StructDecl :=
  ⟨["empty_bases"], "IUIViewSettingsStatics",
   [.named ["winrt", "Windows", "Foundation"] "IInspectable", .templ ["impl"] "consume_t" (.named [] "IUIViewSettingsStatics")],
   [.ctor ⟨"IUIViewSettingsStatics", [⟨.named ["std"] "nullptr_t", none, some .nullptrLit⟩], true, [], []⟩,
    .ctor ⟨"IUIViewSettingsStatics", [⟨.pointer .void, some "ptr", none⟩, ⟨.named [] "take_ownership_from_abi_t", none, none⟩], true, [⟨.named ["winrt", "Windows", "Foundation"] "IInspectable", [.ident "ptr", .ident "take_ownership_from_abi"]⟩], []⟩]⟩

/-- Lines 324-330: `struct IViewModePreferences`. -/
def IViewModePreferences : StructDecl :=
  ⟨["empty_bases"], "IViewModePreferences",
   [.named ["winrt", "Windows", "Foundation"] "IInspectable", .templ ["impl"] "consume_t" (.named [] "IViewModePreferences")],
   [.ctor ⟨"IViewModePreferences", [⟨.named ["std"] "nullptr_t", none, some .nullptrLit⟩], true, [], []⟩,
    .ctor ⟨"IViewModePreferences", [⟨.pointer .void, some "ptr", none⟩, ⟨.named [] "take_ownership_from_abi_t", none, none⟩], true, [⟨.named ["winrt", "Windows", "Foundation"] "IInspectable", [.ident "ptr", .ident "take_ownership_from_abi"]⟩], []⟩]⟩

/-- Lines 331-337: `struct IViewModePreferencesStatics`. -/
def IViewModePreferencesStatics : StructDecl :=
  ⟨["empty_bases"], "IViewModePreferencesStatics",
   [.named ["winrt", "Windows", "Foundation"] "IInspectable", .templ ["impl"] "consume_t" (.named [] "IViewModePreferencesStatics")],
   [.ctor ⟨"IViewModePreferencesStatics", [⟨.named ["std"] "nullptr_t", none, some .nullptrLit⟩], true, [], []⟩,
    .ctor ⟨"IViewModePreferencesStatics", [⟨.pointer .void, some "ptr", none⟩, ⟨.named [] "take_ownership_from_abi_t", none, none⟩], true, [⟨.named ["winrt", "Windows", "Foundation"] "IInspectable", [.ident "ptr", .ident "take_ownership_from_abi"]⟩], []⟩]⟩

/-- The struct declarations of the header, in source order. -/
def decls : List StructDecl :=
  [IAccessibilitySettings,
   IActivationViewSwitcher,
   IApplicationView,
   IApplicationView2,
   IApplicationView3,
   IApplicationView4,
   IApplicationView7,
   IApplicationView9,
   IApplicationViewConsolidatedEventArgs,
   IApplicationViewConsolidatedEventArgs2,
   IApplicationViewFullscreenStatics,
   IApplicationViewInteropStatics,
   IApplicationViewScaling,
   IApplicationViewScalingStatics,
   IApplicationViewStatics,
   IApplicationViewStatics2,
   IApplicationViewStatics3,
   IApplicationViewStatics4,
   IApplicationViewSwitcherStatics,
   IApplicationViewSwitcherStatics2,
   IApplicationViewSwitcherStatics3,
   IApplicationViewTitleBar,
   IApplicationViewTransferContext,
   IApplicationViewTransferContextStatics,
   IApplicationViewWithContext,
   IInputPane,
   IInputPane2,
   IInputPaneControl,
   IInputPaneStatics,
   IInputPaneStatics2,
   IInputPaneVisibilityEventArgs,
   IProjectionManagerStatics,
   IProjectionManagerStatics2,
   IUISettings,
   IUISettings2,
   IUISettings3,
   IUISettings4,
   IUISettings5,
   IUISettings6,
   IUISettingsAnimationsEnabledChangedEventArgs,
   IUISettingsAutoHideScrollBarsChangedEventArgs,
   IUISettingsMessageDurationChangedEventArgs,
   IUIViewSettings,
   IUIViewSettingsPreferredInteractionMode,
   IUIViewSettingsStatics,
   IViewModePreferences,
   IViewModePreferencesStatics]

/-! ## Names mentioned by a declaration -/

/-- Identifiers occurring in a type expression, qualifiers included. -/
def TypeExpr.idents : TypeExpr → List String
  | .void => []
  | .named scope id => scope ++ [id]
  | .templ scope id arg => scope ++ [id] ++ arg.idents
  | .pointer t => t.idents

/-- Identifiers occurring in an expression. -/
def Expr.idents : Expr → List String
  | .nullptrLit => []
  | .ident id => [id]

/-- Identifiers occurring in a parameter declaration. -/
def Param.idents (p : Param) : List String :=
  p.ty.idents ++ p.name.toList ++ (p.dflt.map Expr.idents).getD []

/-- Identifiers occurring in a member-initializer. -/
def Init.idents (i : Init) : List String :=
  i.target.idents ++ i.args.flatMap Expr.idents

/-- Identifiers occurring in a constructor declaration. -/
def CtorDecl.idents (c : CtorDecl) : List String :=
  c.name :: (c.params.flatMap Param.idents ++ c.inits.flatMap Init.idents)

/-- Identifiers occurring in a member declaration. -/
def Member.idents : Member → List String
  | .ctor c => c.idents
  | .field ty id => ty.idents ++ [id]

/-- Every identifier a struct declaration mentions: its own name, those of its base list and
those of its members. -/
def StructDecl.mentions (d : StructDecl) : List String :=
  d.name :: (d.bases.flatMap TypeExpr.idents ++ d.members.flatMap Member.idents)

/-- The names declared by the header. -/
def declaredNames : List String := decls.map StructDecl.name

/-! ## Constructor calls -/

/-- Run-time values that reach a constructor: the `nullptr` literal (of type
`std::nullptr_t`), a raw `void*` (an address, `0` being the null pointer), and the tag
object of type `take_ownership_from_abi_t`. -/
inductive Val where
  | null : Val
  | addr (p : Nat) : Val
  | tag : Val
  deriving DecidableEq

/-- The base class `winrt::Windows::Foundation::IInspectable`, which this header does not
define: a handle type with the handle its default constructor makes and the handle its
`(void*, take_ownership_from_abi_t)` constructor makes from a raw pointer. -/
structure InspectableBase (H : Type) where
  empty : H
  adopt : Nat → H

/-- Modelled from the spec: the missing base class `IInspectable`, whose only attribute is
the underlying raw pointer; default construction gives the null handle and taking
ownership stores the pointer it is given ("storing or nulling the handle"). -/
def storingBase : InspectableBase Nat where
  empty := 0
  adopt := fun p => p

/-- Modelled from the spec: the namespace-scope object `take_ownership_from_abi`, declared
outside this header, the tag that selects "take ownership from ABI". -/
def globals : List (String × Val) := [("take_ownership_from_abi", .tag)]

/-- Implicit conversion of an argument to a parameter type: identity on matching types, and
the null pointer conversion from `std::nullptr_t` to `void*`. -/
def convert (ty : TypeExpr) (v : Val) : Option Val :=
  match v with
  | .null => if ty = nullptrT then some .null else if ty = voidPtrT then some (.addr 0) else none
  | .addr p => if ty = voidPtrT then some (.addr p) else none
  | .tag => if ty = tagT then some .tag else none

/-- Value of an expression in an environment of named values. -/
def evalExpr (env : List (String × Val)) : Expr → Option Val
  | .nullptrLit => some .null
  | .ident id => env.lookup id

/-- Values of a list of argument expressions, left to right; all must have a value. -/
def evalArgs (env : List (String × Val)) : List Expr → Option (List Val)
  | [] => some []
  | e :: es =>
    match evalExpr env e, evalArgs env es with
    | some v, some vs => some (v :: vs)
    | _, _ => none

/-- The pair a named parameter adds to the environment. -/
def bindOne (p : Param) (v : Val) : List (String × Val) :=
  match p.name with
  | some x => [(x, v)]
  | none => []

/-- Match arguments against a parameter list, left to right: each argument is converted
to its parameter's type, a parameter without an argument takes its default, and the call
does not match when an argument is left over, a conversion does not exist, or a parameter
has neither argument nor default.  The result is the environment of the named
parameters. -/
def bindParams : List Param → List Val → Option (List (String × Val))
  | [], [] => some []
  | [], _ :: _ => none
  | p :: ps, [] =>
    match p.dflt with
    | none => none
    | some e =>
      match evalExpr globals e, bindParams ps [] with
      | some v, some env =>
        match convert p.ty v with
        | some w => some (bindOne p w ++ env)
        | none => none
      | _, _ => none
  | p :: ps, a :: as =>
    match convert p.ty a, bindParams ps as with
    | some w, some env => some (bindOne p w ++ env)
    | _, _ => none

/-- A call of a constructor of the base class with evaluated arguments: the default
constructor (also reached with `nullptr`), or the take-ownership constructor. -/
def callBase {H : Type} (B : InspectableBase H) : List Val → Option H
  | [] => some B.empty
  | [.null] => some B.empty
  | [.addr p, .tag] => some (B.adopt p)
  | [.null, .tag] => some (B.adopt 0)
  | _ => none

/-- Run one constructor on a list of arguments.  The parameters are bound, then the
`IInspectable` base subobject is initialised: by the member-initializer naming it when
there is one, by its default constructor when the list is empty.  The body must be empty
(statements are not interpreted).  The result is the handle held by the base subobject,
which is the whole state of the object. -/
def runCtor {H : Type} (B : InspectableBase H) (c : CtorDecl) (args : List Val) : Option H :=
  match bindParams c.params args with
  | none => none
  | some env =>
    if c.body ≠ [] then none
    else
      match c.inits with
      | [] => some B.empty
      | [i] =>
        if i.target = inspectableT then
          match evalArgs (env ++ globals) i.args with
          | some vs => callBase B vs
          | none => none
        else none
      | _ => none

/-- The constructors of a struct: the constructor-shaped members that bear its name. -/
def StructDecl.ctors (d : StructDecl) : List CtorDecl :=
  d.members.filterMap fun
    | .ctor c => if c.name = d.name then some c else none
    | .field _ _ => none

/-- Whether a constructor accepts a list of arguments. -/
def viable (c : CtorDecl) (args : List Val) : Bool :=
  (bindParams c.params args).isSome

/-- The expression `X(args...)` for a struct `X`: the struct must derive from `IInspectable`,
exactly one of its constructors must accept the arguments, and that constructor is run. -/
def construct {H : Type} (B : InspectableBase H) (d : StructDecl) (args : List Val) : Option H :=
  if inspectableT ∈ d.bases then
    match d.ctors.filter (fun c => viable c args) with
    | [c] => runCtor B c args
    | _ => none
  else none

/-- The platform's objects: `implements p x` tells whether address `p` holds an object that
implements the interface named `x`. -/
abbrev World := Nat → String → Bool

/-- The handle invariant for interface `x`: the handle is null or points to an object that
implements `x`. -/
def handleOk (w : World) (x : String) (h : Nat) : Prop :=
  h = 0 ∨ w h x = true

/-- The shape every struct of the header is generated with, for a struct named `x`. -/
def wrapper (x : String) : StructDecl :=
  ⟨["empty_bases"], x, [inspectableT, consumeT x],
   [.ctor ⟨x, [⟨nullptrT, none, some .nullptrLit⟩], true, [], []⟩,
    .ctor ⟨x, [⟨voidPtrT, some "ptr", none⟩, ⟨tagT, none, none⟩], true,
      [⟨inspectableT, [.ident "ptr", .ident "take_ownership_from_abi"]⟩], []⟩]⟩

/-- A world with a single object, at address `1`, which implements `IUISettings` only. -/
def oneObject : World := fun p x => decide (p = 1) && decide (x = "IUISettings")

/-- The identifiers of the generated shape other than the name of the struct. -/
def fixedIdents : List String :=
  ["winrt", "Windows", "Foundation", "IInspectable", "impl", "consume_t", "std", "nullptr_t",
   "ptr", "take_ownership_from_abi_t", "take_ownership_from_abi"]


/-! ## Shared lemmas -/

theorem decls_eq_wrappers : decls = declaredNames.map wrapper := by rfl

theorem wrapper_of_mem {d : StructDecl} (hd : d ∈ decls) : d = wrapper d.name := by
  rw [decls_eq_wrappers] at hd
  obtain ⟨x, -, rfl⟩ := List.mem_map.1 hd
  rfl

theorem ctors_wrapper (x : String) :
    (wrapper x).ctors =
      [⟨x, [⟨nullptrT, none, some .nullptrLit⟩], true, [], []⟩,
       ⟨x, [⟨voidPtrT, some "ptr", none⟩, ⟨tagT, none, none⟩], true,
         [⟨inspectableT, [.ident "ptr", .ident "take_ownership_from_abi"]⟩], []⟩] := by
  simp [StructDecl.ctors, wrapper]

theorem inspectable_mem_bases (x : String) : inspectableT ∈ (wrapper x).bases := by
  simp [wrapper]

theorem construct_wrapper (H : Type) (B : InspectableBase H) (x : String) (args : List Val) :
    construct B (wrapper x) args =
      match ((wrapper x).ctors).filter (fun c => viable c args) with
      | [c] => runCtor B c args
      | _ => none := by
  rw [construct, if_pos (inspectable_mem_bases x)]

theorem construct_wrapper_default {H : Type} (B : InspectableBase H) (x : String) :
    construct B (wrapper x) [] = some B.empty := by
  simp [construct_wrapper, ctors_wrapper, viable, bindParams, evalExpr, convert, bindOne, runCtor, List.filter,
    nullptrT, voidPtrT, tagT, inspectableT]

theorem construct_wrapper_nullptr {H : Type} (B : InspectableBase H) (x : String) :
    construct B (wrapper x) [.null] = some B.empty := by
  simp [construct_wrapper, ctors_wrapper, viable, bindParams, evalExpr, convert, bindOne, runCtor, List.filter,
    nullptrT, voidPtrT, tagT, inspectableT]

theorem construct_wrapper_adopt {H : Type} (B : InspectableBase H) (x : String) (p : Nat) :
    construct B (wrapper x) [.addr p, .tag] = some (B.adopt p) := by
  simp [construct_wrapper, ctors_wrapper, viable, bindParams, evalExpr, convert, bindOne, runCtor, List.filter,
    nullptrT, voidPtrT, tagT, inspectableT, globals, callBase, List.lookup,
    evalArgs]

theorem construct_wrapper_nullptr_tag {H : Type} (B : InspectableBase H) (x : String) :
    construct B (wrapper x) [.null, .tag] = some (B.adopt 0) := by
  simp [construct_wrapper, ctors_wrapper, viable, bindParams, evalExpr, convert, bindOne, runCtor, List.filter,
    nullptrT, voidPtrT, tagT, inspectableT, globals, callBase, List.lookup,
    evalArgs]

/-- Whatever the arguments, a successful construction yields the empty handle or adopts a
pointer that is null or occurs among the arguments. -/
theorem construct_wrapper_cases {H : Type} (B : InspectableBase H) (x : String)
    (args : List Val) (h : H) (hc : construct B (wrapper x) args = some h) :
    h = B.empty ∨ ∃ p, h = B.adopt p ∧ (p = 0 ∨ Val.addr p ∈ args) := by
  match args, hc with
  | [], hc =>
    rw [construct_wrapper_default] at hc
    exact Or.inl (Option.some.inj hc).symm
  | [a], hc =>
    cases a <;>
      simp [construct_wrapper, ctors_wrapper, viable, bindParams, evalExpr, convert, bindOne,
        runCtor, List.filter, nullptrT, voidPtrT, tagT, inspectableT, globals, callBase,
        List.lookup, evalArgs] at hc
    exact Or.inl hc.symm
  | [a, b], hc =>
    cases a <;> cases b <;>
      simp [construct_wrapper, ctors_wrapper, viable, bindParams, evalExpr, convert, bindOne,
        runCtor, List.filter, nullptrT, voidPtrT, tagT, inspectableT, globals, callBase,
        List.lookup, evalArgs] at hc
    · exact Or.inr ⟨0, hc.symm, Or.inl rfl⟩
    · rename_i p
      exact Or.inr ⟨p, hc.symm, Or.inr (by simp)⟩
  | a :: b :: c :: rest, hc =>
    cases a <;> cases b <;>
      simp [construct_wrapper, ctors_wrapper, viable, bindParams, evalExpr, convert, bindOne,
        runCtor, List.filter, nullptrT, voidPtrT, tagT, inspectableT, globals, callBase,
        List.lookup, evalArgs] at hc

/-- A constructor of the generated shape that accepts its arguments returns a handle. -/
theorem runCtor_wrapper_isSome {H : Type} (B : InspectableBase H) (x : String)
    (c : CtorDecl) (hc : c ∈ (wrapper x).ctors) (args : List Val)
    (hv : viable c args = true) : (runCtor B c args).isSome = true := by
  rw [ctors_wrapper] at hc
  simp only [List.mem_cons, List.mem_singleton, List.not_mem_nil, or_false] at hc
  rcases hc with rfl | rfl
  · match args, hv with
    | [], _ =>
      simp [viable, bindParams, evalExpr, convert, bindOne, runCtor, nullptrT, voidPtrT, tagT]
    | [a], hv =>
      cases a <;>
        simp [viable, bindParams, evalExpr, convert, bindOne, runCtor, nullptrT, voidPtrT,
          tagT] at hv ⊢
    | a :: b :: rest, hv =>
      cases a <;>
        simp [viable, bindParams, evalExpr, convert, bindOne, runCtor, nullptrT, voidPtrT,
          tagT] at hv
  · match args, hv with
    | [], hv => simp [viable, bindParams] at hv
    | [a], hv =>
      cases a <;> simp [viable, bindParams, convert, nullptrT, voidPtrT, tagT] at hv
    | [a, b], hv =>
      cases a <;> cases b <;>
        simp [viable, bindParams, evalExpr, convert, bindOne, runCtor, nullptrT, voidPtrT,
          tagT, inspectableT, globals, callBase, List.lookup,
    evalArgs] at hv ⊢
    | a :: b :: c :: rest, hv =>
      cases a <;> cases b <;>
        simp [viable, bindParams, convert, nullptrT, voidPtrT, tagT] at hv

theorem mentions_wrapper (x n : String) (hn : n ∈ (wrapper x).mentions) :
    n = x ∨ n ∈ fixedIdents := by
  simp [StructDecl.mentions, wrapper, Member.idents, CtorDecl.idents, Param.idents, Init.idents,
    TypeExpr.idents, Expr.idents, inspectableT, consumeT, nullptrT, voidPtrT, tagT] at hn
  simp only [fixedIdents, List.mem_cons, List.mem_singleton, List.not_mem_nil, or_false]
  tauto

theorem fixedIdents_not_declared : ∀ n ∈ fixedIdents, n ∉ declaredNames := by decide

/-! ## The claims -/

/-- C1: for every struct declared in the header and every raw pointer `p`, the
take-ownership constructor `X(p, take_ownership_from_abi)` hands `p` unchanged to the
take-ownership constructor of the `IInspectable` base, whatever that base is; with the
base storing the pointer it is given, the resulting handle holds exactly `p`. -/
theorem take_ownership_forwards (d : StructDecl) (hd : d ∈ decls) (p : Nat) :
    (∀ (H : Type) (B : InspectableBase H),
        construct B d [.addr p, .tag] = some (B.adopt p)) ∧
      construct storingBase d [.addr p, .tag] = some p := by
  rw [wrapper_of_mem hd]
  exact ⟨fun _ B => construct_wrapper_adopt B _ p, construct_wrapper_adopt storingBase _ p⟩

theorem take_ownership_forwards_witness :
    IAccessibilitySettings ∈ decls ∧
      construct storingBase IAccessibilitySettings [.addr 7, .tag] = some 7 :=
  ⟨by decide, (take_ownership_forwards IAccessibilitySettings (by decide) 7).2⟩

/-- C2: for every struct declared in the header, the default constructor, called with no
argument or with `nullptr`, default-constructs the `IInspectable` base (the constructor
that accepts the empty argument list has an empty member-initializer list), so with the
base whose default is the null handle the result is null. -/
theorem default_ctor_null (d : StructDecl) (hd : d ∈ decls) :
    (∀ (H : Type) (B : InspectableBase H),
        construct B d [] = some B.empty ∧ construct B d [.null] = some B.empty) ∧
      (∀ c ∈ d.ctors, viable c [] = true → c.inits = []) ∧
      construct storingBase d [] = some 0 ∧ construct storingBase d [.null] = some 0 := by
  rw [wrapper_of_mem hd]
  refine ⟨fun _ B => ⟨construct_wrapper_default B _, construct_wrapper_nullptr B _⟩, ?_,
    construct_wrapper_default storingBase _, construct_wrapper_nullptr storingBase _⟩
  intro c hc hv
  rw [ctors_wrapper] at hc
  simp only [List.mem_cons, List.mem_singleton, List.not_mem_nil, or_false] at hc
  rcases hc with rfl | rfl
  · rfl
  · simp [viable, bindParams] at hv

theorem default_ctor_null_witness :
    IApplicationView ∈ decls ∧
      construct storingBase IApplicationView [] = some 0 ∧
      construct storingBase IApplicationView [.null] = some 0 :=
  ⟨by decide, (default_ctor_null IApplicationView (by decide)).2.2⟩

/-- C3, as stated, fails: `IAccessibilitySettings` is declared in the header, address `1`
holds an object that implements `IUISettings` only, and
`IAccessibilitySettings(1, take_ownership_from_abi)` yields the non-null handle `1`, which
does not point to an object implementing `IAccessibilitySettings`. -/
theorem handle_invariant_not_enforced :
    IAccessibilitySettings ∈ decls ∧
      construct storingBase IAccessibilitySettings [.addr 1, .tag] = some 1 ∧
      ¬ handleOk oneObject IAccessibilitySettings.name 1 := by
  refine ⟨by decide, by decide, ?_⟩
  intro h
  rcases h with h | h
  · exact absurd h (by decide)
  · exact absurd h (by decide)

/-- C3, amended: whenever every raw pointer among the arguments is null or points to an
object implementing the struct's interface, every handle produced by a constructor of a
struct of the header is null or points to an object implementing that interface. -/
theorem handle_invariant_of_input (w : World) (d : StructDecl) (hd : d ∈ decls)
    (args : List Val) (h : Nat) (hc : construct storingBase d args = some h)
    (hin : ∀ p, Val.addr p ∈ args → handleOk w d.name p) : handleOk w d.name h := by
  rw [wrapper_of_mem hd] at hc
  rcases construct_wrapper_cases storingBase _ args h hc with he | ⟨p, he, hp⟩
  · exact Or.inl he
  · have hhp : h = p := he
    rw [hhp]
    rcases hp with hz | hp
    · exact Or.inl hz
    · exact hin p hp

theorem handle_invariant_of_input_witness :
    IUISettings ∈ decls ∧
      construct storingBase IUISettings [.addr 1, .tag] = some 1 ∧
      (∀ p, Val.addr p ∈ [Val.addr 1, Val.tag] → handleOk oneObject IUISettings.name p) ∧
      handleOk oneObject IUISettings.name 1 :=
  have hin : ∀ p, Val.addr p ∈ [Val.addr 1, Val.tag] → handleOk oneObject IUISettings.name p := by
    intro p hp
    simp only [List.mem_cons, List.mem_singleton, Val.addr.injEq, List.not_mem_nil, or_false,
      reduceCtorEq] at hp
    subst hp
    exact Or.inr (by decide)
  ⟨by decide, by decide, hin,
    handle_invariant_of_input oneObject IUISettings (by decide) [.addr 1, .tag] 1 (by decide)
      hin⟩

/-- C4: for every struct declared in the header, every member is a constructor declared
`noexcept`, there are two of them, each call form returns a handle (no argument,
`nullptr`, any raw pointer with the tag, the null pointer included, and `nullptr` with the
tag), and a constructor returns a handle for every argument list it accepts. -/
theorem ctors_total (d : StructDecl) (hd : d ∈ decls) :
    (∀ m ∈ d.members, ∃ c, m = .ctor c ∧ c.isNoexcept = true) ∧
      d.ctors.length = 2 ∧
      ∀ (H : Type) (B : InspectableBase H),
        (construct B d []).isSome = true ∧
        (construct B d [.null]).isSome = true ∧
        (∀ p, (construct B d [.addr p, .tag]).isSome = true) ∧
        (construct B d [.null, .tag]).isSome = true ∧
        ∀ c ∈ d.ctors, ∀ args, viable c args = true → (runCtor B c args).isSome = true := by
  rw [wrapper_of_mem hd]
  refine ⟨?_, by rw [ctors_wrapper]; rfl, fun H B => ⟨?_, ?_, fun p => ?_, ?_, ?_⟩⟩
  · intro m hm
    simp only [wrapper, List.mem_cons, List.mem_singleton, List.not_mem_nil, or_false] at hm
    rcases hm with rfl | rfl
    · exact ⟨_, rfl, rfl⟩
    · exact ⟨_, rfl, rfl⟩
  · rw [construct_wrapper_default]; rfl
  · rw [construct_wrapper_nullptr]; rfl
  · rw [construct_wrapper_adopt]; rfl
  · rw [construct_wrapper_nullptr_tag]; rfl
  · intro c hc args hv
    exact runCtor_wrapper_isSome B _ c hc args hv

theorem ctors_total_witness :
    IInputPane ∈ decls ∧ (construct storingBase IInputPane [.addr 0, .tag]).isSome = true :=
  ⟨by decide, ((ctors_total IInputPane (by decide)).2.2 Nat storingBase).2.2.1 0⟩

/-- C5: every struct `X` declared in the header has exactly the two bases
`winrt::Windows::Foundation::IInspectable` and `impl::consume_t<X>`, with `X` its own name,
and exactly two members, both constructors named `X`, the first with the parameter list
`(std::nullptr_t = nullptr)` and the second with `(void* ptr, take_ownership_from_abi_t)`. -/
theorem uniform_shape (d : StructDecl) (hd : d ∈ decls) :
    d.bases = [inspectableT, consumeT d.name] ∧
      ∃ c₁ c₂ : CtorDecl, d.members = [.ctor c₁, .ctor c₂] ∧
        c₁.name = d.name ∧ c₁.params = [⟨nullptrT, none, some .nullptrLit⟩] ∧
        c₂.name = d.name ∧ c₂.params = [⟨voidPtrT, some "ptr", none⟩, ⟨tagT, none, none⟩] := by
  have h := wrapper_of_mem hd
  generalize d.name = x at h ⊢
  subst h
  exact ⟨rfl, _, _, rfl, rfl, rfl, rfl, rfl⟩

theorem uniform_shape_witness :
    IUISettings6 ∈ decls ∧ IUISettings6.bases = [inspectableT, consumeT "IUISettings6"] :=
  ⟨by decide, (uniform_shape IUISettings6 (by decide)).1⟩

/-- C6: among the names the header declares, the declaration of a struct `X` mentions only
`X` itself. -/
theorem structs_are_siblings (d : StructDecl) (hd : d ∈ decls) (n : String)
    (hn : n ∈ d.mentions) (hdecl : n ∈ declaredNames) : n = d.name := by
  have h := wrapper_of_mem hd
  generalize d.name = x at h ⊢
  subst h
  rcases mentions_wrapper x n hn with h | h
  · exact h
  · exact absurd hdecl (fixedIdents_not_declared n h)

theorem structs_are_siblings_witness :
    IViewModePreferences ∈ decls ∧ "IViewModePreferences" ∈ IViewModePreferences.mentions ∧
      "IViewModePreferences" ∈ declaredNames ∧
      "IViewModePreferences" = IViewModePreferences.name :=
  ⟨by decide, by decide, by decide,
    structs_are_siblings IViewModePreferences (by decide) "IViewModePreferences" (by decide)
      (by decide)⟩

/-- C7: the header declares 47 structs and their names are pairwise distinct: every
declared name belongs to exactly one declaration. -/
theorem names_distinct :
    decls.length = 47 ∧ declaredNames.Nodup ∧
      ∀ x ∈ declaredNames, (decls.filter (fun d => d.name = x)).length = 1 := by
  refine ⟨by decide, by decide, by decide⟩

end ViewManagement
